import Mathlib

/-!
Verification of the median-filtered analog sampling and observation-assembly
pipeline of the 3D-PAWS Feather SnowStreamGauge firmware.

The development shallowly embeds the relevant C routines:
machine floats become `Option ℚ` (with `none` standing for NaN), the
global-variable state of the sketch becomes explicit record types, and the
hardware collaborators (analog pins, I2C bus transactions, driver `begin`
handshakes, one-wire scratchpad reads, the SD card and the RTC) become
oracle fields carrying the values those collaborators would return.
-/

set_option maxRecDepth 100000

namespace SSG

/-! ### Quality-control envelope (SG.h, QC section)

The firmware defines per-quantity static envelopes and error sentinels.
Values are modelled as exact rationals. -/

def QC_MIN_T : ℚ := -40
def QC_MAX_T : ℚ := 60
def QC_ERR_T : ℚ := -9999/10
def QC_MIN_P : ℚ := 300
def QC_MAX_P : ℚ := 1100
def QC_ERR_P : ℚ := -9999/10
def QC_MIN_RH : ℚ := 0
def QC_MAX_RH : ℚ := 100
def QC_ERR_RH : ℚ := -9999/10

/-- A C `float` value: `none` models NaN, `some x` a (finite) numeric value.
Infinities do not arise in the modelled code paths. -/
abbrev FloatV := Option ℚ

/-- The quality-control ternary used throughout `OBS_Do` and `DS.h`:
`(isnan(x) || (x < qmin) || (x > qmax)) ? qerr : x`.
In C a NaN compares false under `<` and `>`, which is why `isnan` is tested
first; the `match` on `none` reproduces exactly that behaviour. -/
def QC_gate (qmin qmax qerr : ℚ) (v : FloatV) : ℚ :=
  match v with
  | none => qerr
  | some x => if x < qmin ∨ x > qmax then qerr else x

/-! ### Robust sampler: `mysort` and `s_gauge_median` (SG.h)

`mysort` is a bubble sort: the outer loop runs `n-1` times and the inner
loop of iteration `i` performs `n-1-i` adjacent compare-and-swap steps
(`myswap` is inlined in the functional embedding).  `bpass l k` is one inner
loop with `k` remaining compare-and-swap steps; `mysortAux l k` runs the
passes with budgets `k, k-1, ..., 1`. -/

def bpass : List Nat → Nat → List Nat
  | l, 0 => l
  | [], _ + 1 => []
  | [a], _ + 1 => [a]
  | a :: b :: rest, k + 1 =>
    if a > b then b :: bpass (a :: rest) k else a :: bpass (b :: rest) k

def mysortAux : List Nat → Nat → List Nat
  | l, 0 => l
  | l, k + 1 => mysortAux (bpass l (k + 1)) k

/-- Embedding of `mysort(a, n)` from SG.h, embedded on lists: `n-1` outer iterations. -/
def mysort (a : List Nat) (n : Nat) : List Nat := mysortAux a (n - 1)

def SG_BUCKETS : Nat := 60

/-- Embedding of `s_gauge_median()` from the M0 SG.h: the sampling loop fills the 60
buckets from the analog pin (modelled as the input `window`), sorts them with
`mysort`, and returns the bucket at index `(SG_BUCKETS+1)/2 - 1`. -/
def s_gauge_median (window : List Nat) : Nat :=
  (mysort window SG_BUCKETS).getD ((SG_BUCKETS + 1) / 2 - 1) 0

theorem bpass_single (k : Nat) (a : Nat) : bpass [a] k = [a] := by
  cases k <;> rfl

theorem bpass_zero (l : List Nat) : bpass l 0 = l := by
  match l with
  | [] => rfl
  | [a] => rfl
  | a :: b :: rest => rfl

theorem bpass_perm (k : Nat) : ∀ l : List Nat, (bpass l k).Perm l := by
  induction k with
  | zero => intro l; cases l <;> simp [bpass]
  | succ k ih =>
    intro l
    match l with
    | [] => simp [bpass]
    | [a] => simp [bpass]
    | a :: b :: rest =>
      simp only [bpass]
      split
      · exact ((ih (a :: rest)).cons b).trans (List.Perm.swap a b rest)
      · exact (ih (b :: rest)).cons a

theorem bpass_last_max (k : Nat) :
    ∀ l : List Nat, l ≠ [] → l.length ≤ k + 1 →
      ∃ l' m, bpass l k = l' ++ [m] ∧ ∀ x ∈ l, x ≤ m := by
  induction k with
  | zero =>
    intro l hne hlen
    match l with
    | [] => exact absurd rfl hne
    | [a] =>
      refine ⟨[], a, by simp [bpass], ?_⟩
      intro x hx
      simp only [List.mem_singleton] at hx
      simp [hx]
    | a :: b :: rest => simp at hlen
  | succ k ih =>
    intro l hne hlen
    match l with
    | [] => exact absurd rfl hne
    | [a] =>
      refine ⟨[], a, by simp [bpass], ?_⟩
      intro x hx
      simp only [List.mem_singleton] at hx
      simp [hx]
    | a :: b :: rest =>
      have hlen' : rest.length + 2 ≤ k + 2 := by simpa using hlen
      simp only [bpass]
      split
      case isTrue hab =>
        obtain ⟨l', m, heq, hb⟩ :=
          ih (a :: rest) (by simp) (by simp; omega)
        refine ⟨b :: l', m, by rw [heq, List.cons_append], ?_⟩
        intro x hx
        rcases List.mem_cons.mp hx with hxa | hx'
        · exact hxa ▸ hb a (List.mem_cons_self a rest)
        · rcases List.mem_cons.mp hx' with hxb | hxr
          · exact hxb ▸ le_trans (le_of_lt hab) (hb a (List.mem_cons_self a rest))
          · exact hb x (List.mem_cons_of_mem a hxr)
      case isFalse hab =>
        obtain ⟨l', m, heq, hb⟩ :=
          ih (b :: rest) (by simp) (by simp; omega)
        refine ⟨a :: l', m, by rw [heq, List.cons_append], ?_⟩
        intro x hx
        rcases List.mem_cons.mp hx with hxa | hx'
        · exact hxa ▸ le_trans (le_of_not_lt hab) (hb b (List.mem_cons_self b rest))
        · exact hb x hx'

theorem bpass_append_max (k : Nat) :
    ∀ (l : List Nat) (m : Nat), (∀ x ∈ l, x ≤ m) →
      bpass (l ++ [m]) k = bpass l k ++ [m] := by
  induction k with
  | zero => intro l m _; rw [bpass_zero, bpass_zero]
  | succ k ih =>
    intro l m hb
    match l with
    | [] => simp [bpass, bpass_single]
    | [a] =>
      have ha : a ≤ m := hb a (List.mem_singleton_self a)
      simp only [List.cons_append, List.nil_append, bpass]
      rw [if_neg (by omega), bpass_single]
    | a :: b :: rest =>
      simp only [List.cons_append, bpass]
      have hbr : ∀ x ∈ a :: rest, x ≤ m := by
        intro x hx
        rcases List.mem_cons.mp hx with hxa | hxr
        · exact hxa ▸ hb a (List.mem_cons_self a (b :: rest))
        · exact hb x (List.mem_cons_of_mem a (List.mem_cons_of_mem b hxr))
      have hbr' : ∀ x ∈ b :: rest, x ≤ m := by
        intro x hx
        exact hb x (List.mem_cons_of_mem a hx)
      have e1 : a :: rest.append [m] = (a :: rest) ++ [m] := rfl
      have e2 : b :: rest.append [m] = (b :: rest) ++ [m] := rfl
      split
      · rw [e1, ih (a :: rest) m hbr]
        rfl
      · rw [e2, ih (b :: rest) m hbr']
        rfl

theorem mysortAux_perm (k : Nat) : ∀ l : List Nat, (mysortAux l k).Perm l := by
  induction k with
  | zero => intro l; simp [mysortAux]
  | succ k ih =>
    intro l
    simp only [mysortAux]
    exact (ih _).trans (bpass_perm _ _)

theorem mysortAux_append_max (k : Nat) :
    ∀ (l : List Nat) (m : Nat), (∀ x ∈ l, x ≤ m) →
      mysortAux (l ++ [m]) k = mysortAux l k ++ [m] := by
  induction k with
  | zero => intro l m _; rfl
  | succ k ih =>
    intro l m hb
    simp only [mysortAux]
    rw [bpass_append_max _ l m hb]
    exact ih _ m (fun x hx => hb x ((bpass_perm _ l).subset hx))

theorem mysortAux_sorted (k : Nat) :
    ∀ l : List Nat, l.length ≤ k + 1 → List.Sorted (· ≤ ·) (mysortAux l k) := by
  induction k with
  | zero =>
    intro l hl
    match l with
    | [] => simp [mysortAux]
    | [a] => simp [mysortAux]
    | a :: b :: rest => simp at hl
  | succ k ih =>
    intro l hl
    match l with
    | [] =>
      simp only [mysortAux]
      exact ih [] (by simp)
    | c :: t =>
      obtain ⟨l', m, heq, hb⟩ := bpass_last_max (k + 1) (c :: t) (by simp) hl
      simp only [mysortAux]
      rw [heq]
      have hble : ∀ x ∈ l', x ≤ m := by
        intro x hx
        exact hb x ((bpass_perm (k + 1) (c :: t)).subset
          (heq ▸ List.mem_append.mpr (Or.inl hx)))
      rw [mysortAux_append_max k l' m hble]
      have hlen' : l'.length ≤ k + 1 := by
        have hlt := (bpass_perm (k + 1) (c :: t)).length_eq
        rw [heq] at hlt
        simp at hlt
        simp at hl
        omega
      refine List.pairwise_append.mpr ⟨ih l' hlen', by simp, ?_⟩
      intro x hx y hy
      simp only [List.mem_singleton] at hy
      subst hy
      exact hble x ((mysortAux_perm k l').subset hx)

theorem getD_mem_of_lt : ∀ (l : List Nat) (n : Nat), n < l.length → l.getD n 0 ∈ l := by
  intro l
  induction l with
  | nil => intro n h; simp at h
  | cons a t ih =>
    intro n h
    cases n with
    | zero => simp
    | succ m =>
      have hm : m < t.length := by simpa using h
      simpa using Or.inr (ih m hm)

/-- Claim C1: for a 60-sample window, `s_gauge_median` sorts the window
ascending with `mysort` and selects the element at 0-based index
`(60+1)/2 - 1 = 29`, which is an element of the input multiset (the lower of
the two middle elements, not an average). -/
theorem s_gauge_median_spec (w : List Nat) (h : w.length = 60) :
    (SG_BUCKETS + 1) / 2 - 1 = 29 ∧
    List.Sorted (· ≤ ·) (mysort w SG_BUCKETS) ∧
    (mysort w SG_BUCKETS).Perm w ∧
    s_gauge_median w = (mysort w SG_BUCKETS).getD 29 0 ∧
    s_gauge_median w ∈ w := by
  have hperm : (mysort w SG_BUCKETS).Perm w := mysortAux_perm _ w
  have hlen : (mysort w SG_BUCKETS).length = 60 := by rw [hperm.length_eq, h]
  refine ⟨by decide, ?_, hperm, rfl, ?_⟩
  · exact mysortAux_sorted 59 w (by omega)
  · exact hperm.subset (getD_mem_of_lt _ 29 (by omega))

theorem s_gauge_median_spec_witness :
    (List.range 60).length = 60 ∧ s_gauge_median (List.range 60) ∈ List.range 60 :=
  ⟨by simp, (s_gauge_median_spec (List.range 60) (by simp)).2.2.2.2⟩

/-! ### Claim C2: the quality-control gate -/

/-- Claim C2, counterexample: the claim states that the gate returns `v`
itself *iff* `v` is not NaN and `qmin ≤ v ≤ qmax`.  At `v = QC_ERR_T`
(the temperature sentinel `-999.9`, which lies below `QC_MIN_T = -40`) the
gate returns the sentinel, which is equal to `v`, while `v` is out of the
envelope — refuting the right-to-left reading of the iff. -/
theorem QC_gate_iff_counterexample :
    QC_gate QC_MIN_T QC_MAX_T QC_ERR_T (some QC_ERR_T) = QC_ERR_T ∧
    ¬(QC_MIN_T ≤ QC_ERR_T ∧ QC_ERR_T ≤ QC_MAX_T) := by
  constructor
  · simp only [QC_gate]
    split <;> rfl
  · intro hc
    have h1 : (QC_MIN_T : ℚ) ≤ QC_ERR_T := hc.1
    norm_num [QC_MIN_T, QC_ERR_T] at h1

/-- Claim C2, amended: for every envelope `[qmin, qmax]` with sentinel
`qerr` and every raw value `v` (possibly NaN): if `v` is NaN the gate
returns the sentinel; if `v` is a number inside the envelope (boundaries
included) the gate returns it unchanged; if `v` is a number outside the
envelope the gate returns the sentinel.  Consequently the gate returns the
input value itself iff the input is a number that is in the envelope *or
happens to equal the sentinel*.  The gate is a pure function. -/
theorem QC_gate_spec (qmin qmax qerr : ℚ) (v : FloatV) :
    (v = none → QC_gate qmin qmax qerr v = qerr) ∧
    (∀ x : ℚ, v = some x →
      ((qmin ≤ x ∧ x ≤ qmax) → QC_gate qmin qmax qerr v = x) ∧
      (¬(qmin ≤ x ∧ x ≤ qmax) → QC_gate qmin qmax qerr v = qerr) ∧
      (QC_gate qmin qmax qerr v = x ↔ ((qmin ≤ x ∧ x ≤ qmax) ∨ x = qerr))) := by
  refine ⟨fun hv => by rw [hv]; rfl, fun x hv => ?_⟩
  subst hv
  simp only [QC_gate]
  by_cases h : x < qmin ∨ x > qmax
  · have hx : ¬(qmin ≤ x ∧ x ≤ qmax) := by
      rcases h with h | h
      · exact fun hc => absurd hc.1 (not_le.mpr h)
      · exact fun hc => absurd hc.2 (not_le.mpr h)
    rw [if_pos h]
    refine ⟨fun hc => absurd hc hx, fun _ => rfl, ?_⟩
    constructor
    · intro he
      exact Or.inr he.symm
    · intro hor
      rcases hor with hc | he
      · exact absurd hc hx
      · rw [he]
  · have hx : qmin ≤ x ∧ x ≤ qmax := by
      rw [not_or, not_lt, gt_iff_lt, not_lt] at h
      exact ⟨h.1, h.2⟩
    rw [if_neg h]
    exact ⟨fun _ => rfl, fun hc => absurd hx hc, by simp [hx]⟩

theorem QC_gate_spec_witness :
    QC_gate QC_MIN_T QC_MAX_T QC_ERR_T (some 20) = 20 :=
  ((QC_gate_spec QC_MIN_T QC_MAX_T QC_ERR_T (some 20)).2 20 rfl).1
    (by norm_num [QC_MIN_T, QC_MAX_T])

/-! ### SystemStatus bit-field (SG.h defines, `JPO_ClearBits`)

`SystemStatusBits` is a C `unsigned int`; clearing a bit is `&= ~MASK`,
i.e. a bitwise and with the 32-bit complement of the mask, modelled by
`NOT32`. -/

def SSB_PWRON : Nat := 0x1
def SSB_SD : Nat := 0x2
def SSB_RTC : Nat := 0x4
def SSB_OLED : Nat := 0x8
def SSB_BMX_1 : Nat := 0x80
def SSB_BMX_2 : Nat := 0x100
def SSB_MCP_1 : Nat := 0x800
def SSB_DS_1 : Nat := 0x1000

/-- 32-bit complement `~m` of a mask, as used on a C `unsigned int`. -/
def NOT32 (m : Nat) : Nat := (2 ^ 32 - 1) ^^^ m

theorem testBit_and_NOT32_pow (b j i : Nat) (hi : i < 32) :
    (b &&& NOT32 (2 ^ j)).testBit i = (b.testBit i && !(decide (j = i))) := by
  rw [NOT32, Nat.testBit_and, Nat.testBit_xor, Nat.testBit_two_pow_sub_one,
    Nat.testBit_two_pow]
  simp [hi]

structure JPO_State where
  SystemStatusBits : Nat
  JustPoweredOn : Bool
deriving DecidableEq

/-- Embedding of `JPO_ClearBits()` from SG.h: when `JustPoweredOn` is still set, clear it
and turn off the six startup bits `SSB_PWRON`, `SSB_OLED`, `SSB_BMX_1`,
`SSB_BMX_2`, `SSB_MCP_1`, `SSB_DS_1`; otherwise do nothing. -/
def JPO_ClearBits (s : JPO_State) : JPO_State :=
  if s.JustPoweredOn then
    { JustPoweredOn := false,
      SystemStatusBits :=
        s.SystemStatusBits &&& NOT32 SSB_PWRON &&& NOT32 SSB_OLED &&& NOT32 SSB_BMX_1
          &&& NOT32 SSB_BMX_2 &&& NOT32 SSB_MCP_1 &&& NOT32 SSB_DS_1 }
  else s

/-- Behaviour of one `JPO_ClearBits` call: with `JustPoweredOn` still set
it clears exactly the six startup bits — bit indices 0 (`SSB_PWRON`),
3 (`SSB_OLED`), 7 (`SSB_BMX_1`), 8 (`SSB_BMX_2`), 11 (`SSB_MCP_1`) and
12 (`SSB_DS_1`) — leaving every other bit of the 32-bit status word (e.g.
`SSB_SD` at index 1, `SSB_RTC` at index 2) unchanged, and it clears
`JustPoweredOn`; with `JustPoweredOn` already false the call is a no-op. -/
theorem JPO_ClearBits_clears (s : JPO_State) :
    (s.JustPoweredOn = true →
      (JPO_ClearBits s).JustPoweredOn = false ∧
      ∀ i, i < 32 →
        (JPO_ClearBits s).SystemStatusBits.testBit i =
          (s.SystemStatusBits.testBit i &&
            !(decide (0 = i) || decide (3 = i) || decide (7 = i) || decide (8 = i) ||
              decide (11 = i) || decide (12 = i)))) ∧
    (s.JustPoweredOn = false → JPO_ClearBits s = s) ∧
    JPO_ClearBits (JPO_ClearBits s) = JPO_ClearBits s := by
  refine ⟨fun hj => ⟨by simp [JPO_ClearBits, hj], fun i hi => ?_⟩,
    fun hj => by simp [JPO_ClearBits, hj], ?_⟩
  · have e0 : SSB_PWRON = 2 ^ 0 := by norm_num [SSB_PWRON]
    have e3 : SSB_OLED = 2 ^ 3 := by norm_num [SSB_OLED]
    have e7 : SSB_BMX_1 = 2 ^ 7 := by norm_num [SSB_BMX_1]
    have e8 : SSB_BMX_2 = 2 ^ 8 := by norm_num [SSB_BMX_2]
    have e11 : SSB_MCP_1 = 2 ^ 11 := by norm_num [SSB_MCP_1]
    have e12 : SSB_DS_1 = 2 ^ 12 := by norm_num [SSB_DS_1]
    simp only [JPO_ClearBits, hj, if_true]
    rw [e0, e3, e7, e8, e11, e12]
    rw [testBit_and_NOT32_pow _ _ _ hi, testBit_and_NOT32_pow _ _ _ hi,
      testBit_and_NOT32_pow _ _ _ hi, testBit_and_NOT32_pow _ _ _ hi,
      testBit_and_NOT32_pow _ _ _ hi, testBit_and_NOT32_pow _ _ _ hi]
    simp [Bool.not_or, Bool.and_assoc]
  · by_cases hj : s.JustPoweredOn <;> simp [JPO_ClearBits, hj]

/-! ### Bosch sensor identification (Sensors.h: `get_Bosch_ChipID`,
`bmx_initialize`) -/

def BMP280_CHIP_ID : Nat := 0x58
def BME280_BMP390_CHIP_ID : Nat := 0x60
def BMP388_CHIP_ID : Nat := 0x50
def BMX_TYPE_UNKNOWN : Nat := 0
def BMX_TYPE_BMP280 : Nat := 1
def BMX_TYPE_BME280 : Nat := 2
def BMX_TYPE_BMP388 : Nat := 3
def BMX_TYPE_BMP390 : Nat := 4

inductive Driver where
  | bmp280
  | bme280
  | bmp3xx
deriving DecidableEq

/-- Outcome of one I2C chip-id register probe: the `Wire.endTransmission`
status, the `Wire.requestFrom` byte count, and the byte read. -/
structure WireProbe where
  et_error : Nat
  rf_count : Nat
  chip : Nat

/-- One stage of `get_Bosch_ChipID`: a probe stage yields a chip id only
when the bus transaction succeeded, a byte came back, and the byte is one of
the three known codes (0x58, 0x50, 0x60). -/
def chipid_probe_match (p : WireProbe) : Option Nat :=
  if p.et_error ≠ 0 then none
  else if p.rf_count ≠ 0 then
    if p.chip = BMP280_CHIP_ID then some p.chip
    else if p.chip = BMP388_CHIP_ID then some p.chip
    else if p.chip = BME280_BMP390_CHIP_ID then some p.chip
    else none
  else none

/-- Embedding of `get_Bosch_ChipID(address)`: probe register 0x00 first, then register
0xD0, returning the first matched chip id, or 0 if neither stage matches. -/
def get_Bosch_ChipID (p00 pD0 : WireProbe) : Nat :=
  match chipid_probe_match p00 with
  | some c => c
  | none =>
    match chipid_probe_match pD0 with
    | some c => c
    | none => 0

/-- Driver `begin` handshake results for one Bosch slot (oracle). -/
structure BmxBegin where
  bmp_begin : Bool
  bme_begin : Bool
  bm3_begin : Bool

structure BmxSlot where
  BMX_exists : Bool
  BMX_type : Nat
  SystemStatusBits : Nat
  attempts : List Driver
deriving DecidableEq

/-- The per-slot body of `bmx_initialize()` (the `switch (BMX_n_chip_id)`):
`ssb_mask` is the slot fault bit (`SSB_BMX_1` or `SSB_BMX_2`), `bits` the
incoming `SystemStatusBits`.  `attempts` records which driver `begin`
handshakes were tried, in order.  At boot `BMX_n_exists` is `false` and
`BMX_n_type` is `BMX_TYPE_UNKNOWN`, which the `default` case leaves. -/
def bmx_init_slot (chip_id : Nat) (ssb_mask : Nat) (pr : BmxBegin) (bits : Nat) : BmxSlot :=
  if chip_id = BMP280_CHIP_ID then
    if pr.bmp_begin = false then
      ⟨false, BMX_TYPE_UNKNOWN, bits ||| ssb_mask, [Driver.bmp280]⟩
    else ⟨true, BMX_TYPE_BMP280, bits, [Driver.bmp280]⟩
  else if chip_id = BME280_BMP390_CHIP_ID then
    if pr.bme_begin = false then
      if pr.bm3_begin = false then
        ⟨false, BMX_TYPE_UNKNOWN, bits ||| ssb_mask, [Driver.bme280, Driver.bmp3xx]⟩
      else ⟨true, BMX_TYPE_BMP390, bits, [Driver.bme280, Driver.bmp3xx]⟩
    else ⟨true, BMX_TYPE_BME280, bits, [Driver.bme280]⟩
  else if chip_id = BMP388_CHIP_ID then
    if pr.bm3_begin = false then
      ⟨false, BMX_TYPE_UNKNOWN, bits ||| ssb_mask, [Driver.bmp3xx]⟩
    else ⟨true, BMX_TYPE_BMP388, bits, [Driver.bmp3xx]⟩
  else ⟨false, BMX_TYPE_UNKNOWN, bits, []⟩

/-- Claim C3: when the chip-identity probe of a Bosch slot reads byte
`0x58` the slot is identified as BMP280 and the BMP280 driver's `begin` is
the (only) handshake attempted; when it reads `0x60` the BME280 handshake
is attempted first and the BMP390 (`Adafruit_BMP3XX`) handshake only if the
BME280 one fails; if both fail the slot's exists flag is `false` and the
slot's fault bit (here `SSB_BMX_1`, bit 7) is set in `SystemStatusBits`. -/
theorem bmx_initialize_spec (p00 pD0 : WireProbe) (pr : BmxBegin) (bits : Nat)
    (h0 : p00.et_error = 0) (h1 : p00.rf_count ≠ 0) :
    (p00.chip = 0x58 →
      get_Bosch_ChipID p00 pD0 = 0x58 ∧
      (bmx_init_slot (get_Bosch_ChipID p00 pD0) SSB_BMX_1 pr bits).attempts =
        [Driver.bmp280] ∧
      (pr.bmp_begin = true →
        (bmx_init_slot (get_Bosch_ChipID p00 pD0) SSB_BMX_1 pr bits).BMX_exists = true ∧
        (bmx_init_slot (get_Bosch_ChipID p00 pD0) SSB_BMX_1 pr bits).BMX_type =
          BMX_TYPE_BMP280)) ∧
    (p00.chip = 0x60 →
      get_Bosch_ChipID p00 pD0 = 0x60 ∧
      (pr.bme_begin = true →
        (bmx_init_slot (get_Bosch_ChipID p00 pD0) SSB_BMX_1 pr bits).attempts =
          [Driver.bme280] ∧
        (bmx_init_slot (get_Bosch_ChipID p00 pD0) SSB_BMX_1 pr bits).BMX_exists = true ∧
        (bmx_init_slot (get_Bosch_ChipID p00 pD0) SSB_BMX_1 pr bits).BMX_type =
          BMX_TYPE_BME280) ∧
      (pr.bme_begin = false →
        (bmx_init_slot (get_Bosch_ChipID p00 pD0) SSB_BMX_1 pr bits).attempts =
          [Driver.bme280, Driver.bmp3xx] ∧
        (pr.bm3_begin = true →
          (bmx_init_slot (get_Bosch_ChipID p00 pD0) SSB_BMX_1 pr bits).BMX_exists = true ∧
          (bmx_init_slot (get_Bosch_ChipID p00 pD0) SSB_BMX_1 pr bits).BMX_type =
            BMX_TYPE_BMP390) ∧
        (pr.bm3_begin = false →
          (bmx_init_slot (get_Bosch_ChipID p00 pD0) SSB_BMX_1 pr bits).BMX_exists = false ∧
          (bmx_init_slot (get_Bosch_ChipID p00 pD0) SSB_BMX_1 pr
            bits).SystemStatusBits.testBit 7 = true))) := by
  constructor
  · intro hc
    have hid : get_Bosch_ChipID p00 pD0 = 0x58 := by
      simp [get_Bosch_ChipID, chipid_probe_match, h0, h1, hc, BMP280_CHIP_ID]
    refine ⟨hid, ?_, ?_⟩
    · simp [hid, bmx_init_slot, BMP280_CHIP_ID]
      split <;> rfl
    · intro hb
      simp [hid, bmx_init_slot, BMP280_CHIP_ID, hb]
  · intro hc
    have hid : get_Bosch_ChipID p00 pD0 = 0x60 := by
      simp [get_Bosch_ChipID, chipid_probe_match, h0, h1, hc, BMP280_CHIP_ID,
        BMP388_CHIP_ID, BME280_BMP390_CHIP_ID]
    refine ⟨hid, ?_, ?_⟩
    · intro hb
      simp [hid, bmx_init_slot, BMP280_CHIP_ID, BME280_BMP390_CHIP_ID, hb]
    · intro hb
      refine ⟨?_, fun h3 => ?_, fun h3 => ?_⟩
      · simp [hid, bmx_init_slot, BMP280_CHIP_ID, BME280_BMP390_CHIP_ID, hb]
        split <;> rfl
      · simp [hid, bmx_init_slot, BMP280_CHIP_ID, BME280_BMP390_CHIP_ID, hb, h3]
      · constructor
        · simp [hid, bmx_init_slot, BMP280_CHIP_ID, BME280_BMP390_CHIP_ID, hb, h3]
        · simp [hid, bmx_init_slot, BMP280_CHIP_ID, BME280_BMP390_CHIP_ID, hb, h3,
            Nat.testBit_or]
          right
          decide

theorem bmx_initialize_spec_witness :
    (bmx_init_slot (get_Bosch_ChipID ⟨0, 1, 0x58⟩ ⟨1, 0, 0⟩) SSB_BMX_1
      ⟨true, true, true⟩ 0).BMX_exists = true :=
  (((bmx_initialize_spec ⟨0, 1, 0x58⟩ ⟨1, 0, 0⟩ ⟨true, true, true⟩ 0 rfl
    (by decide)).1 rfl).2.2 rfl).1

/-! ### Presence monitor (`I2C_Check_Sensors` in Sensors.h)

Oracle `BusProbe` carries, for one invocation, the outcome of the
address-only presence transaction (`I2C_Device_Exist`) for each slot and of
every driver `begin` call that might be attempted.  The state is the pair of
exists flags, the cached chip ids (never written by this routine) and the
status bit-field.  The result records emitted transition events and the
driver handshakes attempted. -/

structure BusProbe where
  dev1_present : Bool
  dev2_present : Bool
  bmp1_begin : Bool
  bme1_begin : Bool
  bm31_begin : Bool
  bmp2_begin : Bool
  bme2_begin : Bool
  bm32_begin : Bool

structure I2CState where
  BMX_1_exists : Bool
  BMX_2_exists : Bool
  BMX_1_chip_id : Nat
  BMX_2_chip_id : Nat
  SystemStatusBits : Nat
deriving DecidableEq

/-- The BMX_1 block of `I2C_Check_Sensors()`.  Note the `else if` guard is
character-for-character the same test `BMX_1_chip_id == BME280_BMP390_CHIP_ID`
as the preceding `if`, exactly as in the source. -/
def I2C_Check_BMX1 (pr : BusProbe) (s : I2CState) :
    I2CState × List String × List Driver :=
  if pr.dev1_present = true then
    if s.BMX_1_exists = false then
      if s.BMX_1_chip_id = BME280_BMP390_CHIP_ID then
        if pr.bmp1_begin = true then
          ({ s with BMX_1_exists := true,
                    SystemStatusBits := s.SystemStatusBits &&& NOT32 SSB_BMX_1 },
           ["BMP1 ONLINE"], [Driver.bmp280])
        else (s, [], [Driver.bmp280])
      else if s.BMX_1_chip_id = BME280_BMP390_CHIP_ID then
        if pr.bme1_begin = true then
          ({ s with BMX_1_exists := true,
                    SystemStatusBits := s.SystemStatusBits &&& NOT32 SSB_BMX_1 },
           ["BME1 ONLINE"], [Driver.bme280])
        else (s, [], [Driver.bme280])
      else
        if pr.bm31_begin = true then
          ({ s with BMX_1_exists := true,
                    SystemStatusBits := s.SystemStatusBits &&& NOT32 SSB_BMX_1 },
           ["BM31 ONLINE"], [Driver.bmp3xx])
        else (s, [], [Driver.bmp3xx])
    else (s, [], [])
  else
    if s.BMX_1_exists = true then
      ({ s with BMX_1_exists := false,
                SystemStatusBits := s.SystemStatusBits ||| SSB_BMX_1 },
       ["BMX1 OFFLINE"], [])
    else (s, [], [])

/-- The BMX_2 block of `I2C_Check_Sensors()`, with the same duplicated
guard. -/
def I2C_Check_BMX2 (pr : BusProbe) (s : I2CState) :
    I2CState × List String × List Driver :=
  if pr.dev2_present = true then
    if s.BMX_2_exists = false then
      if s.BMX_2_chip_id = BME280_BMP390_CHIP_ID then
        if pr.bmp2_begin = true then
          ({ s with BMX_2_exists := true,
                    SystemStatusBits := s.SystemStatusBits &&& NOT32 SSB_BMX_2 },
           ["BMP2 ONLINE"], [Driver.bmp280])
        else (s, [], [Driver.bmp280])
      else if s.BMX_2_chip_id = BME280_BMP390_CHIP_ID then
        if pr.bme2_begin = true then
          ({ s with BMX_2_exists := true,
                    SystemStatusBits := s.SystemStatusBits &&& NOT32 SSB_BMX_2 },
           ["BME2 ONLINE"], [Driver.bme280])
        else (s, [], [Driver.bme280])
      else
        if pr.bm32_begin = true then
          ({ s with BMX_2_exists := true,
                    SystemStatusBits := s.SystemStatusBits &&& NOT32 SSB_BMX_2 },
           ["BM32 ONLINE"], [Driver.bmp3xx])
        else (s, [], [Driver.bmp3xx])
    else (s, [], [])
  else
    if s.BMX_2_exists = true then
      ({ s with BMX_2_exists := false,
                SystemStatusBits := s.SystemStatusBits ||| SSB_BMX_2 },
       ["BMX2 OFFLINE"], [])
    else (s, [], [])

/-- Embedding of `I2C_Check_Sensors()`: the BMX_1 block, then the BMX_2 block. -/
def I2C_Check_Sensors (pr : BusProbe) (s : I2CState) :
    I2CState × List String × List Driver :=
  let r1 := I2C_Check_BMX1 pr s
  let r2 := I2C_Check_BMX2 pr r1.1
  (r2.1, r1.2.1 ++ r2.2.1, r1.2.2 ++ r2.2.2)

/-- The exists-flag produced by the BMX_1 block, as a function of the fields
it actually reads. -/
def slot1_next (pr : BusProbe) (ex : Bool) (chip : Nat) : Bool :=
  if pr.dev1_present = true then
    if ex = false then
      if chip = BME280_BMP390_CHIP_ID then pr.bmp1_begin
      else if chip = BME280_BMP390_CHIP_ID then pr.bme1_begin
      else pr.bm31_begin
    else true
  else false

def slot2_next (pr : BusProbe) (ex : Bool) (chip : Nat) : Bool :=
  if pr.dev2_present = true then
    if ex = false then
      if chip = BME280_BMP390_CHIP_ID then pr.bmp2_begin
      else if chip = BME280_BMP390_CHIP_ID then pr.bme2_begin
      else pr.bm32_begin
    else true
  else false

theorem I2C_Check_BMX1_exists_eq (pr : BusProbe) (s : I2CState) :
    (I2C_Check_BMX1 pr s).1.BMX_1_exists =
      slot1_next pr s.BMX_1_exists s.BMX_1_chip_id := by
  unfold I2C_Check_BMX1 slot1_next
  split_ifs <;> simp_all

theorem I2C_Check_BMX2_exists_eq (pr : BusProbe) (s : I2CState) :
    (I2C_Check_BMX2 pr s).1.BMX_2_exists =
      slot2_next pr s.BMX_2_exists s.BMX_2_chip_id := by
  unfold I2C_Check_BMX2 slot2_next
  split_ifs <;> simp_all

theorem I2C_Check_BMX1_pres (pr : BusProbe) (s : I2CState) :
    (I2C_Check_BMX1 pr s).1.BMX_2_exists = s.BMX_2_exists ∧
    (I2C_Check_BMX1 pr s).1.BMX_1_chip_id = s.BMX_1_chip_id ∧
    (I2C_Check_BMX1 pr s).1.BMX_2_chip_id = s.BMX_2_chip_id := by
  unfold I2C_Check_BMX1
  split_ifs <;> simp

theorem I2C_Check_BMX2_pres (pr : BusProbe) (s : I2CState) :
    (I2C_Check_BMX2 pr s).1.BMX_1_exists = s.BMX_1_exists ∧
    (I2C_Check_BMX2 pr s).1.BMX_1_chip_id = s.BMX_1_chip_id ∧
    (I2C_Check_BMX2 pr s).1.BMX_2_chip_id = s.BMX_2_chip_id := by
  unfold I2C_Check_BMX2
  split_ifs <;> simp

theorem slot1_next_idem (pr : BusProbe) (ex : Bool) (chip : Nat) :
    slot1_next pr (slot1_next pr ex chip) chip = slot1_next pr ex chip := by
  by_cases hc : chip = BME280_BMP390_CHIP_ID <;>
    cases hp : pr.dev1_present <;> cases ex <;>
      simp [slot1_next, hc, hp]

theorem slot2_next_idem (pr : BusProbe) (ex : Bool) (chip : Nat) :
    slot2_next pr (slot2_next pr ex chip) chip = slot2_next pr ex chip := by
  by_cases hc : chip = BME280_BMP390_CHIP_ID <;>
    cases hp : pr.dev2_present <;> cases ex <;>
      simp [slot2_next, hc, hp]

theorem I2C_Check_BMX1_stable (pr : BusProbe) (s : I2CState)
    (h : slot1_next pr s.BMX_1_exists s.BMX_1_chip_id = s.BMX_1_exists) :
    (I2C_Check_BMX1 pr s).1 = s ∧ (I2C_Check_BMX1 pr s).2.1 = [] := by
  cases hp : pr.dev1_present with
  | false =>
    cases he : s.BMX_1_exists with
    | false => simp [I2C_Check_BMX1, hp, he]
    | true =>
      simp [slot1_next, hp, he] at h
  | true =>
    cases he : s.BMX_1_exists with
    | true => simp [I2C_Check_BMX1, hp, he]
    | false =>
      simp only [slot1_next, hp, he] at h
      by_cases hc : s.BMX_1_chip_id = BME280_BMP390_CHIP_ID
      · have hb : pr.bmp1_begin = false := by simpa [hc] using h
        simp [I2C_Check_BMX1, hp, he, hc, hb]
      · have hb : pr.bm31_begin = false := by simpa [hc] using h
        simp [I2C_Check_BMX1, hp, he, hc, hb]

theorem I2C_Check_BMX2_stable (pr : BusProbe) (s : I2CState)
    (h : slot2_next pr s.BMX_2_exists s.BMX_2_chip_id = s.BMX_2_exists) :
    (I2C_Check_BMX2 pr s).1 = s ∧ (I2C_Check_BMX2 pr s).2.1 = [] := by
  cases hp : pr.dev2_present with
  | false =>
    cases he : s.BMX_2_exists with
    | false => simp [I2C_Check_BMX2, hp, he]
    | true =>
      simp [slot2_next, hp, he] at h
  | true =>
    cases he : s.BMX_2_exists with
    | true => simp [I2C_Check_BMX2, hp, he]
    | false =>
      simp only [slot2_next, hp, he] at h
      by_cases hc : s.BMX_2_chip_id = BME280_BMP390_CHIP_ID
      · have hb : pr.bmp2_begin = false := by simpa [hc] using h
        simp [I2C_Check_BMX2, hp, he, hc, hb]
      · have hb : pr.bm32_begin = false := by simpa [hc] using h
        simp [I2C_Check_BMX2, hp, he, hc, hb]

/-- Claim C8: running `I2C_Check_Sensors` a second time against the very
same bus-probe and `begin`-handshake outcomes changes nothing: the second
run leaves `BMX_1_exists`, `BMX_2_exists`, the chip ids and
`SystemStatusBits` exactly as the first run left them, and emits no
online/offline transition event. -/
theorem I2C_Check_Sensors_idempotent (pr : BusProbe) (s : I2CState) :
    (I2C_Check_Sensors pr (I2C_Check_Sensors pr s).1).1 = (I2C_Check_Sensors pr s).1 ∧
    (I2C_Check_Sensors pr (I2C_Check_Sensors pr s).1).2.1 = [] := by
  have hs1_ex1 := I2C_Check_BMX1_exists_eq pr s
  have hs1p := I2C_Check_BMX1_pres pr s
  have htp := I2C_Check_BMX2_pres pr (I2C_Check_BMX1 pr s).1
  have ht_ex2 := I2C_Check_BMX2_exists_eq pr (I2C_Check_BMX1 pr s).1
  have h1 : slot1_next pr (I2C_Check_BMX2 pr (I2C_Check_BMX1 pr s).1).1.BMX_1_exists
      (I2C_Check_BMX2 pr (I2C_Check_BMX1 pr s).1).1.BMX_1_chip_id =
      (I2C_Check_BMX2 pr (I2C_Check_BMX1 pr s).1).1.BMX_1_exists := by
    rw [htp.1, htp.2.1, hs1_ex1, hs1p.2.1]
    exact slot1_next_idem pr s.BMX_1_exists s.BMX_1_chip_id
  have hstab1 := I2C_Check_BMX1_stable pr (I2C_Check_BMX2 pr (I2C_Check_BMX1 pr s).1).1 h1
  have h2 : slot2_next pr (I2C_Check_BMX2 pr (I2C_Check_BMX1 pr s).1).1.BMX_2_exists
      (I2C_Check_BMX2 pr (I2C_Check_BMX1 pr s).1).1.BMX_2_chip_id =
      (I2C_Check_BMX2 pr (I2C_Check_BMX1 pr s).1).1.BMX_2_exists := by
    rw [ht_ex2, htp.2.2]
    exact slot2_next_idem pr (I2C_Check_BMX1 pr s).1.BMX_2_exists
      (I2C_Check_BMX1 pr s).1.BMX_2_chip_id
  have hstab2 := I2C_Check_BMX2_stable pr (I2C_Check_BMX2 pr (I2C_Check_BMX1 pr s).1).1 h2
  simp only [I2C_Check_Sensors]
  rw [hstab1.1, hstab1.2, hstab2.1, hstab2.2]
  simp

/-- Claim C10: in `I2C_Check_Sensors` the recovery branch that would call
`bme1.begin` (resp. `bme2.begin`) is dead code — its guard is the same
`BMX_n_chip_id == BME280_BMP390_CHIP_ID` test as the branch right before
it — so the BME280 driver handshake is never attempted; a slot whose cached
chip id marks it as BME280/BMP390 and whose exists flag is down can come
back online only through a successful `bmp1.begin`/`bmp2.begin`. -/
theorem I2C_Check_bme_unreachable (pr : BusProbe) (s : I2CState) :
    Driver.bme280 ∉ (I2C_Check_Sensors pr s).2.2 ∧
    (s.BMX_1_chip_id = BME280_BMP390_CHIP_ID → s.BMX_1_exists = false →
      pr.dev1_present = true →
      ((I2C_Check_Sensors pr s).1.BMX_1_exists = true ↔ pr.bmp1_begin = true)) ∧
    (s.BMX_2_chip_id = BME280_BMP390_CHIP_ID → s.BMX_2_exists = false →
      pr.dev2_present = true →
      ((I2C_Check_Sensors pr s).1.BMX_2_exists = true ↔ pr.bmp2_begin = true)) := by
  refine ⟨?_, fun hc he hp => ?_, fun hc he hp => ?_⟩
  · have a1 : Driver.bme280 ∉ (I2C_Check_BMX1 pr s).2.2 := by
      unfold I2C_Check_BMX1
      split_ifs <;> simp_all
    have a2 : Driver.bme280 ∉ (I2C_Check_BMX2 pr (I2C_Check_BMX1 pr s).1).2.2 := by
      unfold I2C_Check_BMX2
      split_ifs <;> simp_all
    simp only [I2C_Check_Sensors]
    simp only [List.mem_append]
    intro hmem
    rcases hmem with hmem | hmem
    · exact a1 hmem
    · exact a2 hmem
  · have e : (I2C_Check_Sensors pr s).1.BMX_1_exists =
        slot1_next pr s.BMX_1_exists s.BMX_1_chip_id := by
      simp only [I2C_Check_Sensors]
      rw [(I2C_Check_BMX2_pres pr (I2C_Check_BMX1 pr s).1).1]
      exact I2C_Check_BMX1_exists_eq pr s
    rw [e]
    simp [slot1_next, hc, he, hp]
  · have e : (I2C_Check_Sensors pr s).1.BMX_2_exists =
        slot2_next pr (I2C_Check_BMX1 pr s).1.BMX_2_exists
          (I2C_Check_BMX1 pr s).1.BMX_2_chip_id := by
      simp only [I2C_Check_Sensors]
      exact I2C_Check_BMX2_exists_eq pr (I2C_Check_BMX1 pr s).1
    rw [e, (I2C_Check_BMX1_pres pr s).1, (I2C_Check_BMX1_pres pr s).2.2]
    simp [slot2_next, hc, he, hp]

theorem I2C_Check_bme_unreachable_witness :
    ((I2C_Check_Sensors ⟨true, true, true, true, true, true, true, true⟩
      ⟨false, false, 0x60, 0x60, 0⟩).1.BMX_1_exists = true ↔ True) := by
  have h := (I2C_Check_bme_unreachable
    ⟨true, true, true, true, true, true, true, true⟩
    ⟨false, false, 0x60, 0x60, 0⟩).2.1 rfl rfl rfl
  simpa using h

/-! ### Dallas one-wire sensor (DS.h) -/

/-- Oracle for one `getDSTempByAddr` scratchpad read: whether the CRC check
`OneWire::crc8(data, 8) == data[8]` passed (the CRC computation itself lives
in the external OneWire library), and the data bytes the conversion uses. -/
structure DSRead where
  crc_ok : Bool
  d0 : Nat
  d1 : Nat
  d4 : Nat

structure DSState where
  ds_reading : ℚ
  ds_valid : Bool
deriving DecidableEq

/-- Embedding of `getDSTempByAddr(delayms)` from DS.h, as a function of one scratchpad
read.  The bytes are `uint8`, hence the `% 256`; `raw` is an
`unsigned int` whose value stays far below `2^32`, so no truncation is
needed after the shifts.  `t = raw / 16.0` cannot be NaN because `raw` is an
unsigned integer, so the `isnan(t)` disjunct of the QC ternary is never
true. -/
def getDSTempByAddr (r : DSRead) : DSState :=
  if r.crc_ok = false then
    ⟨0, false⟩
  else
    let raw0 : Nat := ((r.d1 % 256) <<< 8) ||| (r.d0 % 256)
    let cfg : Nat := (r.d4 % 256) &&& 0x60
    let raw : Nat :=
      if cfg = 0x00 then raw0 <<< 3
      else if cfg = 0x20 then raw0 <<< 2
      else if cfg = 0x40 then raw0 <<< 1
      else raw0
    let t : ℚ := (raw : ℚ) / 16
    let reading : ℚ := if t < QC_MIN_T ∨ t > QC_MAX_T then QC_ERR_T else t
    if reading ≠ QC_ERR_T then ⟨reading, true⟩ else ⟨QC_ERR_P, false⟩

/-- Embedding of `getDSTemp()` from DS.h: one read with a 250 ms delay, retried once with
750 ms when the first read is not valid. -/
def getDSTemp (r1 r2 : DSRead) : DSState :=
  let s1 := getDSTempByAddr r1
  if s1.ds_valid = false then getDSTempByAddr r2 else s1

/-! ### Record formatting helpers

`OBS_Do` builds its record with `sprintf`; the conversions used are `%s`,
`%d`, `%u`, and zero-padded `%02d`/`%04d`, applied to `(int)` casts of
floats (C cast truncates toward zero) and to C `%` (truncated remainder). -/

/-- The C cast `(int)q`: truncation toward zero. -/
def ctrunc (q : ℚ) : Int := q.num.tdiv (q.den : Int)

/-- The value `(int)(q*100) % 100` — the fractional-part integer used by the
formatting. -/
def frac100 (q : ℚ) : Int := (ctrunc (q * 100)).tmod 100

def pad0 (w : Nat) (s : String) : String :=
  if s.length < w then String.mk (List.replicate (w - s.length) '0') ++ s else s

def spad (w : Nat) (s : String) : String :=
  if s.length < w then String.mk (List.replicate (w - s.length) ' ') ++ s else s

/-- Rendering `%0wd` of an int: C zero-pads to total field width `w`, with the zeros
after the minus sign. -/
def fmt0 (w : Nat) (i : Int) : String :=
  if i < 0 then "-" ++ pad0 (w - 1) (toString (-i)) else pad0 w (toString i)

/-- Rendering `%u` of an `(int)` value: conversion to `unsigned int` is reduction
mod `2^32`. -/
def fmtu (i : Int) : String := toString (Int.toNat (Int.emod i (2 ^ 32)))

/-! ### The firmware state (`World`) and the observation pipeline

`World` carries the globals of the sketch together with the oracle values
the hardware collaborators would return during one `OBS_Do` invocation. -/

structure World where
  RTC_valid : Bool
  SerialConsoleEnabled : Bool
  DisplayEnabled : Bool
  timestamp : String
  now_year : Nat
  now_month : Nat
  now_day : Nat
  sg_window : List Nat
  BMX_1_exists : Bool
  BMX_1_chip_id : Nat
  BMX_1_type : Nat
  BMX_2_exists : Bool
  BMX_2_chip_id : Nat
  BMX_2_type : Nat
  bmp1_pressure : FloatV
  bmp1_temp : FloatV
  bme1_pressure : FloatV
  bme1_temp : FloatV
  bme1_humid : FloatV
  bm31_pressure : FloatV
  bm31_temp : FloatV
  bmp2_pressure : FloatV
  bmp2_temp : FloatV
  bme2_pressure : FloatV
  bme2_temp : FloatV
  bme2_humid : FloatV
  bm32_pressure : FloatV
  bm32_temp : FloatV
  MCP_1_exists : Bool
  mcp1_tempC : FloatV
  ds_found : Bool
  ds_reading : ℚ
  ds_valid : Bool
  ds_read1 : DSRead
  ds_read2 : DSRead
  vbat_raw : ℚ
  SystemStatusBits : Nat
  SD_exists : Bool
  sd_open_ok : Bool
  sd_writes : List String
  oled : List String
  serial : List String

/-- Embedding of `Serial_write()`: prints only when the serial console is enabled. -/
def Serial_write (w : World) (s : String) : World :=
  if w.SerialConsoleEnabled then { w with serial := w.serial ++ [s] } else w

/-- Embedding of `OLED_write()`: the scrolling display buffer is abstracted to the list
of lines written; nothing is recorded when the display is disabled. -/
def OLED_write (w : World) (s : String) : World :=
  if w.DisplayEnabled then { w with oled := w.oled ++ [s] } else w

/-- Embedding of `Output()`: writes the line to both the OLED and the serial console. -/
def Output (w : World) (s : String) : World :=
  Serial_write (OLED_write w s) s

/-- Embedding of `vbat_get()`: `raw * 2 * 3.3 / 1024`. -/
def vbat_get (raw : ℚ) : ℚ := raw * 2 * (33 / 10) / 1024

/-- The BMX_1 read block of `OBS_Do`: pressure (divided by 100 into hPa),
temperature and humidity before quality control; the locals start at `0.0`
and only a BME280 read sets humidity.  The source tests
`BMX_1_type == BMX_TYPE_BME280` and `BMX_1_type == BMX_TYPE_BMP390` with
two consecutive `if`s; the types are distinct constants, so the `else if`
embedding below is behaviourally identical. -/
def bmx1_raw (w : World) : FloatV × FloatV × FloatV :=
  if w.BMX_1_chip_id = BMP280_CHIP_ID then
    (Option.map (fun x => x / 100) w.bmp1_pressure, w.bmp1_temp, some 0)
  else if w.BMX_1_chip_id = BME280_BMP390_CHIP_ID then
    if w.BMX_1_type = BMX_TYPE_BME280 then
      (Option.map (fun x => x / 100) w.bme1_pressure, w.bme1_temp, w.bme1_humid)
    else if w.BMX_1_type = BMX_TYPE_BMP390 then
      (Option.map (fun x => x / 100) w.bm31_pressure, w.bm31_temp, some 0)
    else (some 0, some 0, some 0)
  else
    (Option.map (fun x => x / 100) w.bm31_pressure, w.bm31_temp, some 0)

def bmx2_raw (w : World) : FloatV × FloatV × FloatV :=
  if w.BMX_2_chip_id = BMP280_CHIP_ID then
    (Option.map (fun x => x / 100) w.bmp2_pressure, w.bmp2_temp, some 0)
  else if w.BMX_2_chip_id = BME280_BMP390_CHIP_ID then
    if w.BMX_2_type = BMX_TYPE_BME280 then
      (Option.map (fun x => x / 100) w.bme2_pressure, w.bme2_temp, w.bme2_humid)
    else if w.BMX_2_type = BMX_TYPE_BMP390 then
      (Option.map (fun x => x / 100) w.bm32_pressure, w.bm32_temp, some 0)
    else (some 0, some 0, some 0)
  else
    (Option.map (fun x => x / 100) w.bm32_pressure, w.bm32_temp, some 0)

/-- The three quality-controlled BMX_1 values `bmx1_pressure`, `bmx1_temp`,
`bmx1_humid` of `OBS_Do`. -/
def bmx1_gated (w : World) : ℚ × ℚ × ℚ :=
  (QC_gate QC_MIN_P QC_MAX_P QC_ERR_P (bmx1_raw w).1,
   QC_gate QC_MIN_T QC_MAX_T QC_ERR_T (bmx1_raw w).2.1,
   QC_gate QC_MIN_RH QC_MAX_RH QC_ERR_RH (bmx1_raw w).2.2)

def bmx2_gated (w : World) : ℚ × ℚ × ℚ :=
  (QC_gate QC_MIN_P QC_MAX_P QC_ERR_P (bmx2_raw w).1,
   QC_gate QC_MIN_T QC_MAX_T QC_ERR_T (bmx2_raw w).2.1,
   QC_gate QC_MIN_RH QC_MAX_RH QC_ERR_RH (bmx2_raw w).2.2)

/-- The local `mcp1_temp` of `OBS_Do`: gated read when the sensor exists, otherwise
the local stays `0.0` (and is not serialized). -/
def mcp1_gated (w : World) : ℚ :=
  if w.MCP_1_exists then QC_gate QC_MIN_T QC_MAX_T QC_ERR_T w.mcp1_tempC else 0

/-- The `sprintf` assembly of the observation record in `OBS_Do`:
`{"at":"%s","sg":%d,` then per-slot groups (`%u.%04d` for pressure,
`%d.%02d` for temperature and humidity, `%d.%04d` for `mt1` and `dt1`),
then `"bv":%d.%02d,"hth":%d}`. -/
def OBS_record (w : World) (sg : Nat)
    (bp1 bt1 bh1 bp2 bt2 bh2 mt1 dt1 batt : ℚ) : String :=
  "\x7b\"at\":\"" ++ w.timestamp ++ "\",\"sg\":" ++ toString sg ++ "," ++
  (if w.BMX_1_exists then
      "\"bp1\":" ++ fmtu (ctrunc bp1) ++ "." ++ fmt0 4 (frac100 bp1) ++
      ",\"bt1\":" ++ toString (ctrunc bt1) ++ "." ++ fmt0 2 (frac100 bt1) ++
      ",\"bh1\":" ++ toString (ctrunc bh1) ++ "." ++ fmt0 2 (frac100 bh1) ++ ","
    else "") ++
  (if w.BMX_2_exists then
      "\"bp2\":" ++ fmtu (ctrunc bp2) ++ "." ++ fmt0 4 (frac100 bp2) ++
      ",\"bt2\":" ++ toString (ctrunc bt2) ++ "." ++ fmt0 2 (frac100 bt2) ++
      ",\"bh2\":" ++ toString (ctrunc bh2) ++ "." ++ fmt0 2 (frac100 bh2) ++ ","
    else "") ++
  (if w.MCP_1_exists then
      "\"mt1\":" ++ toString (ctrunc mt1) ++ "." ++ fmt0 4 (frac100 mt1) ++ ","
    else "") ++
  (if w.ds_found then
      "\"dt1\":" ++ toString (ctrunc dt1) ++ "." ++ fmt0 4 (frac100 dt1) ++ ","
    else "") ++
  "\"bv\":" ++ toString (ctrunc batt) ++ "." ++ fmt0 2 (frac100 batt) ++
  ",\"hth\":" ++ toString w.SystemStatusBits ++ "\x7d"

/-- The full record `OBS_Do` serializes into `msgbuf`: median of the
sample window, the gated sensor values, the Dallas reading refreshed by
`getDSTemp()` when the probe was found at boot, and the battery voltage.
It depends on no SD-card state and on no sink state. -/
def OBS_msg (w : World) : String :=
  OBS_record w (s_gauge_median w.sg_window)
    (bmx1_gated w).1 (bmx1_gated w).2.1 (bmx1_gated w).2.2
    (bmx2_gated w).1 (bmx2_gated w).2.1 (bmx2_gated w).2.2
    (mcp1_gated w)
    (if w.ds_found then (getDSTemp w.ds_read1 w.ds_read2).ds_reading
     else w.ds_reading)
    (vbat_get w.vbat_raw)

def SD_obsdir : String := "/OBS"

/-- Embedding of `SD_LogObservation()` from the SD module: bail out silently when the
card was not found at boot or the clock is invalid; otherwise open
`/OBS/YYYYMMDD.log` (`%s/%4d%02d%02d.log`) and either append the record and
clear `SSB_SD`, or set `SSB_SD` and report the open error. -/
def SD_LogObservation (w : World) (obs : String) : World :=
  if w.SD_exists = false then w
  else if w.RTC_valid = false then w
  else
    let logfile := SD_obsdir ++ "/" ++ spad 4 (toString w.now_year) ++
      pad0 2 (toString w.now_month) ++ pad0 2 (toString w.now_day) ++ ".log"
    let w1 := Output w logfile
    if w.sd_open_ok then
      let w2 := { w1 with sd_writes := w1.sd_writes ++ [obs],
                          SystemStatusBits := w1.SystemStatusBits &&& NOT32 SSB_SD }
      Output w2 ("OBS Logged to SD")
    else
      let w2 := { w1 with SystemStatusBits := w1.SystemStatusBits ||| SSB_SD }
      Output w2 ("OBS Open Log Err")

/-- Embedding of `OBS_Do(log_obs)`: refuse to observe without a valid clock; otherwise
sample, read, gate, serialize, optionally log to SD, and always write the
record to the serial console. -/
def OBS_Do (w : World) (log_obs : Bool) : World :=
  if w.RTC_valid = false then
    Output w ("OBS_Do: Time NV")
  else
    let msg := OBS_msg w
    let ds := getDSTemp w.ds_read1 w.ds_read2
    let w1 := Output w ("OBS_Do()")
    let w2 := if log_obs then Output w1 w.timestamp else w1
    let w3 := if w.ds_found then
        { w2 with ds_reading := ds.ds_reading, ds_valid := ds.ds_valid }
      else w2
    let w4 := if log_obs then SD_LogObservation w3 msg else w3
    Serial_write w4 msg

/-! ### Claim C4: invalid clock blocks observation production -/

/-- Claim C4: when `RTC_valid` is false, `OBS_Do` only emits the diagnostic
`OBS_Do: Time NV` (to the display and, when enabled, the serial console) and
returns: the resulting state differs from the input state in the two output
sinks only, so no record is serialized, nothing is appended to the SD log,
and `SystemStatusBits` and every sensor/SD/clock field are unchanged. -/
theorem OBS_Do_time_invalid (w : World) (log_obs : Bool)
    (h : w.RTC_valid = false) :
    OBS_Do w log_obs =
      { w with
          oled := if w.DisplayEnabled then w.oled ++ ["OBS_Do: Time NV"] else w.oled,
          serial := if w.SerialConsoleEnabled then w.serial ++ ["OBS_Do: Time NV"]
            else w.serial } ∧
    (OBS_Do w log_obs).sd_writes = w.sd_writes ∧
    (OBS_Do w log_obs).SystemStatusBits = w.SystemStatusBits := by
  have he : OBS_Do w log_obs = Output w ("OBS_Do: Time NV") := by
    simp [OBS_Do, h]
  refine ⟨?_, ?_, ?_⟩ <;> rw [he] <;>
    cases hD : w.DisplayEnabled <;> cases hS : w.SerialConsoleEnabled <;>
      (simp [Output, OLED_write, Serial_write, hD, hS]
       try (cases w; simp_all))

/-! ### Claim C6: every serialized measurement is gated -/

/-- A value is inside the `[qmin, qmax]` envelope or equals the sentinel. -/
def inEnvOrErr (qmin qmax qerr v : ℚ) : Prop :=
  (qmin ≤ v ∧ v ≤ qmax) ∨ v = qerr

theorem QC_gate_inEnvOrErr (qmin qmax qerr : ℚ) (v : FloatV) :
    inEnvOrErr qmin qmax qerr (QC_gate qmin qmax qerr v) := by
  match v with
  | none => exact Or.inr rfl
  | some x =>
    by_cases h : x < qmin ∨ x > qmax
    · have hv : QC_gate qmin qmax qerr (some x) = qerr := by simp [QC_gate, h]
      unfold inEnvOrErr
      rw [hv]
      exact Or.inr rfl
    · have hv : QC_gate qmin qmax qerr (some x) = x := by simp [QC_gate, h]
      unfold inEnvOrErr
      rw [hv]
      rw [not_or, not_lt, gt_iff_lt, not_lt] at h
      exact Or.inl h

theorem ds_conv_inEnvOrErr (t : ℚ) :
    inEnvOrErr QC_MIN_T QC_MAX_T QC_ERR_T
      ((if (if t < QC_MIN_T ∨ t > QC_MAX_T then QC_ERR_T else t) ≠ QC_ERR_T
        then (⟨if t < QC_MIN_T ∨ t > QC_MAX_T then QC_ERR_T else t, true⟩ : DSState)
        else ⟨QC_ERR_P, false⟩)).ds_reading := by
  by_cases h : t < QC_MIN_T ∨ t > QC_MAX_T
  · rw [if_pos h]
    rw [if_neg (by simp)]
    exact Or.inr (by norm_num [QC_ERR_P, QC_ERR_T])
  · rw [if_neg h]
    by_cases h2 : t ≠ QC_ERR_T
    · rw [if_pos h2]
      rw [not_or, not_lt, gt_iff_lt, not_lt] at h
      exact Or.inl h
    · rw [if_neg h2]
      exact Or.inr (by norm_num [QC_ERR_P, QC_ERR_T])

theorem getDSTempByAddr_inEnvOrErr (r : DSRead) :
    inEnvOrErr QC_MIN_T QC_MAX_T QC_ERR_T (getDSTempByAddr r).ds_reading := by
  unfold getDSTempByAddr
  by_cases hcrc : r.crc_ok = false
  · rw [if_pos hcrc]
    exact Or.inl (by norm_num [QC_MIN_T, QC_MAX_T])
  · rw [if_neg hcrc]
    exact ds_conv_inEnvOrErr _

theorem getDSTemp_inEnvOrErr (r1 r2 : DSRead) :
    inEnvOrErr QC_MIN_T QC_MAX_T QC_ERR_T (getDSTemp r1 r2).ds_reading := by
  simp only [getDSTemp]
  split
  · exact getDSTempByAddr_inEnvOrErr r2
  · exact getDSTempByAddr_inEnvOrErr r1

/-- Claim C6: every float measurement `OBS_Do` hands to the record
serializer (`OBS_record`) has been through the quality-control gate or, for
the Dallas field `dt1`, through `getDSTempByAddr`'s own gating: it is never
NaN (the gated values are plain rationals by construction) and is either
inside its quantity's envelope or equal to the error sentinel.  The `dt1`
value after a CRC-failed read is `0.0`, which lies inside the temperature
envelope, and a gated-out Dallas reading is stored as `QC_ERR_P`, whose
value equals `QC_ERR_T`. -/
theorem OBS_fields_gated (w : World) :
    inEnvOrErr QC_MIN_P QC_MAX_P QC_ERR_P (bmx1_gated w).1 ∧
    inEnvOrErr QC_MIN_T QC_MAX_T QC_ERR_T (bmx1_gated w).2.1 ∧
    inEnvOrErr QC_MIN_RH QC_MAX_RH QC_ERR_RH (bmx1_gated w).2.2 ∧
    inEnvOrErr QC_MIN_P QC_MAX_P QC_ERR_P (bmx2_gated w).1 ∧
    inEnvOrErr QC_MIN_T QC_MAX_T QC_ERR_T (bmx2_gated w).2.1 ∧
    inEnvOrErr QC_MIN_RH QC_MAX_RH QC_ERR_RH (bmx2_gated w).2.2 ∧
    (w.MCP_1_exists = true → inEnvOrErr QC_MIN_T QC_MAX_T QC_ERR_T (mcp1_gated w)) ∧
    (w.ds_found = true →
      inEnvOrErr QC_MIN_T QC_MAX_T QC_ERR_T
        (getDSTemp w.ds_read1 w.ds_read2).ds_reading) := by
  refine ⟨QC_gate_inEnvOrErr _ _ _ _, QC_gate_inEnvOrErr _ _ _ _,
    QC_gate_inEnvOrErr _ _ _ _, QC_gate_inEnvOrErr _ _ _ _,
    QC_gate_inEnvOrErr _ _ _ _, QC_gate_inEnvOrErr _ _ _ _,
    fun hm => ?_, fun _ => getDSTemp_inEnvOrErr _ _⟩
  unfold mcp1_gated
  rw [if_pos hm]
  exact QC_gate_inEnvOrErr _ _ _ _

/-! ### Claim C7: the end-to-end scenario record -/

/-- The C7 scenario world: valid clock, all 60 distance samples reading
raw 512, the first Bosch slot a BME280 (chip id 0x60) reporting
101325 Pa / 22.5 degC / 45 % RH, no second slot, no MCP9808, no Dallas
probe, battery pin raw count 575 (so `vbat_get` is 3795/1024, about
3.706 V, which formats as `3.70`), status bits 0, SD present and
writable. -/
def C7_world : World := {
  RTC_valid := true
  SerialConsoleEnabled := true
  DisplayEnabled := false
  timestamp := "2024-07-19T14:30:00"
  now_year := 2024
  now_month := 7
  now_day := 19
  sg_window := List.replicate 60 512
  BMX_1_exists := true
  BMX_1_chip_id := 0x60
  BMX_1_type := 2
  BMX_2_exists := false
  BMX_2_chip_id := 0
  BMX_2_type := 0
  bmp1_pressure := some 0
  bmp1_temp := some 0
  bme1_pressure := some 101325
  bme1_temp := some (45/2)
  bme1_humid := some 45
  bm31_pressure := some 0
  bm31_temp := some 0
  bmp2_pressure := some 0
  bmp2_temp := some 0
  bme2_pressure := some 0
  bme2_temp := some 0
  bme2_humid := some 0
  bm32_pressure := some 0
  bm32_temp := some 0
  MCP_1_exists := false
  mcp1_tempC := some 0
  ds_found := false
  ds_reading := 0
  ds_valid := false
  ds_read1 := ⟨true, 0, 0, 0⟩
  ds_read2 := ⟨true, 0, 0, 0⟩
  vbat_raw := 575
  SystemStatusBits := 0
  SD_exists := true
  sd_open_ok := true
  sd_writes := []
  oled := []
  serial := []
}

/-- The record the code actually produces in the C7 scenario: the pressure
fractional part is `(int)(p*100) % 100 = 25` zero-padded by `%04d` to
`0025`, not the four decimal digits `2500`. -/
def C7_record_code : String :=
  "\x7b\"at\":\"2024-07-19T14:30:00\",\"sg\":512,\"bp1\":1013.0025,\"bt1\":22.50,\"bh1\":45.00,\"bv\":3.70,\"hth\":0\x7d"

/-- The record the claim says is produced (pressure rendered `1013.2500`). -/
def C7_record_spec : String :=
  "\x7b\"at\":\"2024-07-19T14:30:00\",\"sg\":512,\"bp1\":1013.2500,\"bt1\":22.50,\"bh1\":45.00,\"bv\":3.70,\"hth\":0\x7d"

/-- Claim C7, counterexample: in the claim's scenario the record the code
serializes (both to the SD log and to the serial sink) is `C7_record_code`,
whose pressure field reads `1013.0025`; it differs from the record
`C7_record_spec` that the claim asserts, whose pressure field reads
`1013.2500`. -/
theorem OBS_Do_scenario_counterexample :
    (OBS_Do C7_world true).sd_writes = [C7_record_code] ∧
    C7_record_code ≠ C7_record_spec := by
  constructor
  · with_unfolding_all decide
  · decide

/-- Claim C7, amended: in the scenario (valid clock, median raw 512, one
BME280 slot reading 1013.25 hPa / 22.5 degC / 45.0 %, no other slots,
battery formatting to 3.70 V, status bits 0) the record is exactly, in
fixed field order,
`{"at":"<ts>","sg":512,"bp1":1013.0025,"bt1":22.50,"bh1":45.00,"bv":3.70,"hth":0}`:
integer truncation and modulo produce each fractional part (truncation,
not rounding), two digits for temperature/humidity/voltage; the pressure
fractional part is the *hundredths* remainder zero-padded by `%04d` to four
digits (`0025` for .25), not four decimal digits; absent slots contribute
no keys.  The record is appended to the SD log and is the last line written
to the serial sink. -/
theorem OBS_Do_scenario_record :
    (OBS_Do C7_world true).sd_writes = [C7_record_code] ∧
    (OBS_Do C7_world true).serial.getLast? = some C7_record_code ∧
    OBS_msg C7_world = C7_record_code := by
  refine ⟨by with_unfolding_all decide, by with_unfolding_all decide,
    by with_unfolding_all decide⟩

/-! ### Claim C9: persistence failure drops the record but nothing else -/

theorem Output_frame (w : World) (s : String) :
    (Output w s).RTC_valid = w.RTC_valid ∧
    (Output w s).SerialConsoleEnabled = w.SerialConsoleEnabled ∧
    (Output w s).SD_exists = w.SD_exists ∧
    (Output w s).sd_open_ok = w.sd_open_ok ∧
    (Output w s).sd_writes = w.sd_writes ∧
    (Output w s).SystemStatusBits = w.SystemStatusBits ∧
    (Output w s).ds_found = w.ds_found := by
  unfold Output Serial_write OLED_write
  split_ifs <;> simp

theorem Serial_write_serial (w : World) (s : String)
    (h : w.SerialConsoleEnabled = true) :
    (Serial_write w s).serial = w.serial ++ [s] := by
  unfold Serial_write
  rw [if_pos h]

theorem getLast?_append_singleton (l : List String) (a : String) :
    (l ++ [a]).getLast? = some a := by
  rw [List.getLast?_concat]

theorem SD_LogObservation_fail (w : World) (obs : String)
    (hrtc : w.RTC_valid = true)
    (hfail : w.SD_exists = false ∨ w.sd_open_ok = false) :
    (SD_LogObservation w obs).sd_writes = w.sd_writes ∧
    (SD_LogObservation w obs).SerialConsoleEnabled = w.SerialConsoleEnabled ∧
    (w.SD_exists = true →
      (SD_LogObservation w obs).SystemStatusBits.testBit 1 = true) := by
  by_cases hsd : w.SD_exists = false
  · rw [SD_LogObservation, if_pos hsd]
    exact ⟨rfl, rfl, fun hc => absurd hc (by rw [hsd]; simp)⟩
  · have hopen : w.sd_open_ok = false := hfail.resolve_left hsd
    rw [SD_LogObservation, if_neg hsd, if_neg (by rw [hrtc]; simp)]
    simp only
    rw [if_neg (by rw [hopen]; simp)]
    have hO1 := Output_frame w (SD_obsdir ++ "/" ++ spad 4 (toString w.now_year) ++
      pad0 2 (toString w.now_month) ++ pad0 2 (toString w.now_day) ++ ".log")
    refine ⟨?_, ?_, fun _ => ?_⟩
    · rw [(Output_frame _ _).2.2.2.2.1]
      exact hO1.2.2.2.2.1
    · rw [(Output_frame _ _).2.1]
      exact hO1.2.1
    · rw [(Output_frame _ _).2.2.2.2.2.1]
      show (_ ||| SSB_SD).testBit 1 = true
      rw [Nat.testBit_or]
      have h2 : SSB_SD.testBit 1 = true := by decide
      rw [h2]
      simp

/-- Claim C9: with a valid clock and the serial console enabled, when
persistence fails during a logged observation — the SD card flagged absent
(`SD_exists = false`) or the daily log file failing to open
(`sd_open_ok = false`) — `OBS_Do w true` appends nothing to the SD log (the
record is dropped for the cycle, no retry), sets the `SSB_SD` fault bit
(bit 1) in the open-failure case, and the fully assembled record
`OBS_msg w` is still written to the serial sink as the last line; the
record itself does not depend on the SD state at all. -/
theorem OBS_Do_persistence_failure (w : World)
    (hrtc : w.RTC_valid = true) (hser : w.SerialConsoleEnabled = true)
    (hfail : w.SD_exists = false ∨ w.sd_open_ok = false) :
    (OBS_Do w true).sd_writes = w.sd_writes ∧
    (OBS_Do w true).serial.getLast? = some (OBS_msg w) ∧
    (w.SD_exists = true → (OBS_Do w true).SystemStatusBits.testBit 1 = true) ∧
    (∀ b c : Bool, OBS_msg { w with SD_exists := b, sd_open_ok := c } = OBS_msg w) := by
  have hstep : OBS_Do w true =
      Serial_write (SD_LogObservation
        (if w.ds_found then
          { (Output (Output w ("OBS_Do()")) w.timestamp) with
              ds_reading := (getDSTemp w.ds_read1 w.ds_read2).ds_reading,
              ds_valid := (getDSTemp w.ds_read1 w.ds_read2).ds_valid }
         else Output (Output w ("OBS_Do()")) w.timestamp) (OBS_msg w)) (OBS_msg w) := by
    rw [OBS_Do, if_neg (by rw [hrtc]; simp)]
    rfl
  have hOO := Output_frame (Output w ("OBS_Do()")) w.timestamp
  have hO := Output_frame w ("OBS_Do()")
  have h3 : (if w.ds_found then
      { (Output (Output w ("OBS_Do()")) w.timestamp) with
          ds_reading := (getDSTemp w.ds_read1 w.ds_read2).ds_reading,
          ds_valid := (getDSTemp w.ds_read1 w.ds_read2).ds_valid }
     else Output (Output w ("OBS_Do()")) w.timestamp).RTC_valid = w.RTC_valid ∧
    (if w.ds_found then
      { (Output (Output w ("OBS_Do()")) w.timestamp) with
          ds_reading := (getDSTemp w.ds_read1 w.ds_read2).ds_reading,
          ds_valid := (getDSTemp w.ds_read1 w.ds_read2).ds_valid }
     else Output (Output w ("OBS_Do()")) w.timestamp).SerialConsoleEnabled =
      w.SerialConsoleEnabled ∧
    (if w.ds_found then
      { (Output (Output w ("OBS_Do()")) w.timestamp) with
          ds_reading := (getDSTemp w.ds_read1 w.ds_read2).ds_reading,
          ds_valid := (getDSTemp w.ds_read1 w.ds_read2).ds_valid }
     else Output (Output w ("OBS_Do()")) w.timestamp).SD_exists = w.SD_exists ∧
    (if w.ds_found then
      { (Output (Output w ("OBS_Do()")) w.timestamp) with
          ds_reading := (getDSTemp w.ds_read1 w.ds_read2).ds_reading,
          ds_valid := (getDSTemp w.ds_read1 w.ds_read2).ds_valid }
     else Output (Output w ("OBS_Do()")) w.timestamp).sd_open_ok = w.sd_open_ok ∧
    (if w.ds_found then
      { (Output (Output w ("OBS_Do()")) w.timestamp) with
          ds_reading := (getDSTemp w.ds_read1 w.ds_read2).ds_reading,
          ds_valid := (getDSTemp w.ds_read1 w.ds_read2).ds_valid }
     else Output (Output w ("OBS_Do()")) w.timestamp).sd_writes = w.sd_writes := by
    split <;>
      simp [hOO.1, hOO.2.1, hOO.2.2.1, hOO.2.2.2.1, hOO.2.2.2.2.1,
        hO.1, hO.2.1, hO.2.2.1, hO.2.2.2.1, hO.2.2.2.2.1]
  have hsd := SD_LogObservation_fail _ (OBS_msg w)
    (h3.1.trans hrtc) (by rw [h3.2.2.1, h3.2.2.2.1]; exact hfail)
  refine ⟨?_, ?_, fun hx => ?_, fun b c => rfl⟩
  · rw [hstep]
    show (Serial_write _ _).sd_writes = w.sd_writes
    have : ∀ (u : World) (s : String), (Serial_write u s).sd_writes = u.sd_writes := by
      intro u s
      unfold Serial_write
      split <;> rfl
    rw [this]
    rw [hsd.1]
    exact h3.2.2.2.2
  · rw [hstep, Serial_write_serial _ _ (by rw [hsd.2.1, h3.2.1]; exact hser)]
    exact getLast?_append_singleton _ _
  · rw [hstep]
    have : ∀ (u : World) (s : String),
        (Serial_write u s).SystemStatusBits = u.SystemStatusBits := by
      intro u s
      unfold Serial_write
      split <;> rfl
    rw [this]
    exact hsd.2.2 (by rw [h3.2.2.1]; exact hx)

theorem OBS_Do_persistence_failure_witness :
    (OBS_Do { C7_world with sd_open_ok := false } true).sd_writes = [] :=
  (OBS_Do_persistence_failure { C7_world with sd_open_ok := false }
    rfl rfl (Or.inr rfl)).1

theorem OBS_Do_time_invalid_witness :
    (OBS_Do { C7_world with RTC_valid := false } true).sd_writes = [] :=
  (OBS_Do_time_invalid { C7_world with RTC_valid := false } true rfl).2.1

theorem OBS_fields_gated_witness :
    inEnvOrErr QC_MIN_T QC_MAX_T QC_ERR_T
      (getDSTemp ({ C7_world with ds_found := true }).ds_read1
        ({ C7_world with ds_found := true }).ds_read2).ds_reading :=
  (OBS_fields_gated { C7_world with ds_found := true }).2.2.2.2.2.2.2 rfl

/-! ### Claim C5: the one-shot startup-bit clearing in `loop()`

The normal-operation branch of `loop()` runs `I2C_Check_Sensors()`, then
`OBS_Do(true)`, then — with no test of whether anything was persisted —
`JPO_ClearBits()`, and announces the sleep.  The branch is embedded below on
the pair of a `World` and the `JustPoweredOn` flag; the presence recheck
runs on the `I2CState` slice of the world and its transition events are
emitted through `Output`.  The OLED sleep/wake calls and the timed
deep-sleep that follow are timing/display glue with no effect on any state
modelled here. -/

/-- The prefix of `loop()`'s normal-operation branch up to and including
`OBS_Do(true)`: the presence recheck (acting on the world's exists flags,
chip ids and status word, its events written via `Output`), then the
observation. -/
def loop_preJPO (pr : BusProbe) (w : World) : World :=
  let r := I2C_Check_Sensors pr
    ⟨w.BMX_1_exists, w.BMX_2_exists, w.BMX_1_chip_id, w.BMX_2_chip_id,
      w.SystemStatusBits⟩
  let w0 := List.foldl Output
    { w with BMX_1_exists := r.1.BMX_1_exists,
             BMX_2_exists := r.1.BMX_2_exists,
             SystemStatusBits := r.1.SystemStatusBits } r.2.1
  OBS_Do w0 true

/-- One pass through `loop()`'s normal-operation branch:
`I2C_Check_Sensors(); OBS_Do(true); JPO_ClearBits(); Output("Going to
Sleep")`.  The `JPO_ClearBits()` call is unconditional: nothing inspects
whether `OBS_Do` persisted a record. -/
def loop_normal (pr : BusProbe) (w : World) (jpo : Bool) : World × Bool :=
  let w1 := loop_preJPO pr w
  let j := JPO_ClearBits ⟨w1.SystemStatusBits, jpo⟩
  (Output { w1 with SystemStatusBits := j.SystemStatusBits } ("Going to Sleep"),
   j.JustPoweredOn)

/-- The C5 scenario: the C7 world with the SD card absent and all thirteen
status bits set. -/
def C5_world : World :=
  { C7_world with SD_exists := false, SystemStatusBits := 0x1FFF }

/-- A bus probe under which the presence recheck is a no-op for the C5
scenario: slot 1 present and already online, slot 2 absent and already
offline. -/
def C5_probe : BusProbe := ⟨true, false, false, false, false, false, false, false⟩

/-- Claim C5, counterexample: the claim says the startup bits are cleared
*only after the first successful assembled-and-persisted observation*.  In
the C5 scenario the SD card is absent, so one pass through the normal
branch persists nothing (`sd_writes` stays empty), yet `SSB_PWRON` (set
before the pass) is cleared and `JustPoweredOn` is consumed: the clearing
does not wait for a persisted observation. -/
theorem JPO_clear_without_persist_counterexample :
    C5_world.SD_exists = false ∧
    C5_world.SystemStatusBits.testBit 0 = true ∧
    (loop_normal C5_probe C5_world true).1.sd_writes = [] ∧
    (loop_normal C5_probe C5_world true).1.SystemStatusBits.testBit 0 = false ∧
    (loop_normal C5_probe C5_world true).2 = false := by
  refine ⟨rfl, by decide, ?_, ?_, ?_⟩ <;> with_unfolding_all decide

/-- Claim C5, amended: in `loop()`'s normal-operation branch the
`JPO_ClearBits()` call directly follows `OBS_Do(true)` with no condition on
the persistence outcome, so the one-time clearing happens after the first
pass through the branch whether or not that observation was persisted (the
theorem assumes nothing about the SD state).  With `JustPoweredOn` still
set, the pass clears exactly the six startup bits 0 (`SSB_PWRON`),
3 (`SSB_OLED`), 7 (`SSB_BMX_1`), 8 (`SSB_BMX_2`), 11 (`SSB_MCP_1`) and
12 (`SSB_DS_1`) of the status word left by the recheck-and-observe prefix,
leaves every other bit (e.g. `SSB_SD`, `SSB_RTC`) unchanged, and drops the
flag; with the flag already down the call changes nothing, so the pass
after the first performs no clearing and the flag stays down: the
transition is edge-triggered and happens exactly once. -/
theorem JPO_loop_clear_spec (pr : BusProbe) (w : World) :
    ((loop_normal pr w true).2 = false ∧
     ∀ i, i < 32 →
       (loop_normal pr w true).1.SystemStatusBits.testBit i =
         ((loop_preJPO pr w).SystemStatusBits.testBit i &&
           !(decide (0 = i) || decide (3 = i) || decide (7 = i) || decide (8 = i) ||
             decide (11 = i) || decide (12 = i)))) ∧
    ((loop_normal pr w false).2 = false ∧
     (loop_normal pr w false).1.SystemStatusBits =
       (loop_preJPO pr w).SystemStatusBits) ∧
    (∀ pr2 : BusProbe,
      (loop_normal pr2 (loop_normal pr w true).1
        (loop_normal pr w true).2).1.SystemStatusBits =
        (loop_preJPO pr2 (loop_normal pr w true).1).SystemStatusBits ∧
      (loop_normal pr2 (loop_normal pr w true).1
        (loop_normal pr w true).2).2 = false) := by
  have hout : ∀ (u : World) (s : String),
      (Output u s).SystemStatusBits = u.SystemStatusBits :=
    fun u s => (Output_frame u s).2.2.2.2.2.1
  have hbits : ∀ (p : BusProbe) (u : World) (b : Bool),
      (loop_normal p u b).1.SystemStatusBits =
        (JPO_ClearBits ⟨(loop_preJPO p u).SystemStatusBits, b⟩).SystemStatusBits := by
    intro p u b
    have he : (loop_normal p u b).1 =
        Output { loop_preJPO p u with
                 SystemStatusBits :=
                   (JPO_ClearBits
                     ⟨(loop_preJPO p u).SystemStatusBits, b⟩).SystemStatusBits }
          ("Going to Sleep") := rfl
    rw [he, hout]
  have hflag : ∀ (p : BusProbe) (u : World) (b : Bool),
      (loop_normal p u b).2 =
        (JPO_ClearBits ⟨(loop_preJPO p u).SystemStatusBits, b⟩).JustPoweredOn :=
    fun p u b => rfl
  have hj1 := JPO_ClearBits_clears ⟨(loop_preJPO pr w).SystemStatusBits, true⟩
  have hf : (loop_normal pr w true).2 = false := by
    rw [hflag]
    exact (hj1.1 rfl).1
  refine ⟨⟨hf, fun i hi => ?_⟩, ⟨?_, ?_⟩, fun pr2 => ⟨?_, ?_⟩⟩
  · rw [hbits]
    exact (hj1.1 rfl).2 i hi
  · rw [hflag,
      (JPO_ClearBits_clears ⟨(loop_preJPO pr w).SystemStatusBits, false⟩).2.1 rfl]
  · rw [hbits,
      (JPO_ClearBits_clears ⟨(loop_preJPO pr w).SystemStatusBits, false⟩).2.1 rfl]
  · rw [hf, hbits,
      (JPO_ClearBits_clears
        ⟨(loop_preJPO pr2 (loop_normal pr w true).1).SystemStatusBits, false⟩).2.1 rfl]
  · rw [hf, hflag,
      (JPO_ClearBits_clears
        ⟨(loop_preJPO pr2 (loop_normal pr w true).1).SystemStatusBits, false⟩).2.1 rfl]

theorem JPO_loop_clear_spec_witness :
    (loop_normal C5_probe C5_world true).2 = false ∧
    (loop_normal C5_probe C5_world true).1.SystemStatusBits.testBit 2 = true := by
  have h := JPO_loop_clear_spec C5_probe C5_world
  refine ⟨h.1.1, ?_⟩
  rw [h.1.2 2 (by decide)]
  with_unfolding_all decide

end SSG
